import Mathlib

/-
Verification development for the circuit module of the LibMark repository
(quantmark/circuit.py): a bidirectional translator between the textual
notation printed by QCircuit.__str__ and an in-memory circuit value.

Python strings are modelled as lists of characters (`PyStr`).  The Python
regular expressions used by the module are modelled by a small backtracking
regex engine whose preference order (leftmost match, greedy quantifiers,
alternation preferring the left branch) mirrors Python's `re` module.
Fallible Python code is modelled with `Except PyErr`.
-/

/-- Python strings are modelled as character lists. -/
abbrev PyStr := List Char

/-- Coercion from a Lean string literal to the `PyStr` model. -/
def pys (s : String) : PyStr := s.data

/-- Error conditions of the module.  `invalidSyntax` and
`sameControlAndTarget` are the two exception classes the module imports;
`valueError`, `unpackError` and `indexError` model the unnamed Python
language-level exceptions (`ValueError` from `int`/unpacking, `IndexError`
from a failed `split(...)[1]`).  `malformedField` and `unsupportedGateKind`
are the extra named conditions of the specification's error taxonomy; they
are declared so that claims about them can be stated, the code never
produces them. -/
inductive PyErr where
  | invalidSyntax
  | sameControlAndTarget
  | malformedField
  | unsupportedGateKind
  | valueError (token : PyStr)
  | unpackError
  | indexError
  | typeError
  deriving DecidableEq, Repr

/-- Left-to-right concatenation of the images of a list, used by the
regex engine (the order of the results encodes backtracking preference). -/
def flatMapL {α β : Type} : List α → (α → List β) → List β
  | [], _ => []
  | a :: rest, f => f a ++ flatMapL rest f

/-- Python `s.split(sep, 1)` for a non-empty separator: the first
occurrence of `sep` in `s`, as `(before, after)`; `none` when `sep` does
not occur (in the source this makes `split(...)[1]` raise `IndexError`). -/
def findSub (sep : PyStr) : PyStr → Option (PyStr × PyStr)
  | [] => if sep = [] then some ([], []) else none
  | c :: rest =>
    if sep.isPrefixOf (c :: rest) then some ([], (c :: rest).drop sep.length)
    else (findSub sep rest).map (fun p => (c :: p.1, p.2))

/-- Python `sub in s` (substring containment). -/
def containsSub (sub : PyStr) : PyStr → Bool
  | [] => sub.isEmpty
  | c :: rest => sub.isPrefixOf (c :: rest) || containsSub sub rest

/-- Python `s.split(sep)` for a single-character separator. -/
def pySplitChar (sep : Char) : PyStr → List PyStr
  | [] => [[]]
  | c :: rest =>
    if c = sep then [] :: pySplitChar sep rest
    else
      match pySplitChar sep rest with
      | [] => [[c]]
      | p :: ps => (c :: p) :: ps

/-- The source's `if not parts[-1]: parts = parts[:-1]` (drop a trailing
empty token produced by a trailing list separator). -/
def dropTrailingEmpty (parts : List PyStr) : List PyStr :=
  match parts.getLast? with
  | some [] => parts.dropLast
  | _ => parts

/-- ASCII whitespace accepted by Python's `int`/`float` around a literal. -/
def isPyWs (c : Char) : Bool :=
  c = ' ' || c = '\t' || c = '\n' || c = '\r' || c = '\x0b' || c = '\x0c'

/-- Strip leading and trailing whitespace. -/
def stripWs (s : PyStr) : PyStr :=
  ((s.dropWhile isPyWs).reverse.dropWhile isPyWs).reverse

/-- Value of a run of decimal digits possibly containing single
underscores between digits (Python numeric-literal rule); the first
character is known to be a digit. -/
def digitsValAux : Nat → PyStr → Option Nat
  | acc, [] => some acc
  | acc, c :: rest =>
    if c.isDigit then digitsValAux (10 * acc + (c.toNat - 48)) rest
    else if c = '_' then
      match rest with
      | [] => none
      | d :: rest2 =>
        if d.isDigit then digitsValAux (10 * acc + (d.toNat - 48)) rest2 else none
    else none

/-- Value of a non-empty digit run (underscores allowed between digits,
never leading, trailing or doubled), as accepted by Python `int`. -/
def digitsVal : PyStr → Option Nat
  | [] => none
  | c :: rest => if c.isDigit then digitsValAux 0 (c :: rest) else none

/-- Python `int(token)` restricted to ASCII: optional surrounding
whitespace, optional sign, a digit run. -/
def pyInt (s0 : PyStr) : Option Int :=
  match stripWs s0 with
  | '+' :: r => (digitsVal r).map Int.ofNat
  | '-' :: r => (digitsVal r).map (fun n => -(n : Int))
  | r => (digitsVal r).map Int.ofNat

/-- Result of Python `float(token)`.  A finite value is recorded exactly
as written, as `mantissa * 10 ^ exp10` (the embedding keeps the decimal
value rather than the IEEE rounding, which no claim depends on). -/
inductive PyFloat where
  | finite (mantissa : Int) (exp10 : Int)
  | inf (neg : Bool)
  | nan
  deriving DecidableEq, Repr

/-- A digit or an underscore (the characters a Python numeric-literal
digit run may contain). -/
def isDigitU (c : Char) : Bool := c.isDigit || c = '_'

/-- Number of actual digits in a run (underscores do not count). -/
def digitCount (s : PyStr) : Nat := (s.filter Char.isDigit).length

/-- The exponent part of a Python float literal, after the `e`/`E`. -/
def parseExp : PyStr → Option Int
  | '+' :: r => (digitsVal r).map Int.ofNat
  | '-' :: r => (digitsVal r).map (fun n => -(n : Int))
  | r => (digitsVal r).map Int.ofNat

/-- The numeric (non-inf, non-nan) body of a Python float literal:
`[digits][.digits][exponent]` with at least one mantissa digit. -/
def pyFloatMant (neg : Bool) (s : PyStr) : Option PyFloat :=
  let ipRun := s.takeWhile isDigitU
  let r1 := s.dropWhile isDigitU
  let fpRun :=
    match r1 with
    | '.' :: t => t.takeWhile isDigitU
    | _ => []
  let r2 :=
    match r1 with
    | '.' :: t => t.dropWhile isDigitU
    | _ => r1
  let eVal : Option Int :=
    match r2 with
    | [] => some 0
    | 'e' :: t => parseExp t
    | 'E' :: t => parseExp t
    | _ => none
  if ipRun = [] ∧ fpRun = [] then none
  else
    match (if ipRun = [] then some 0 else digitsVal ipRun),
        (if fpRun = [] then some 0 else digitsVal fpRun), eVal with
    | some ip, some fp, some e =>
      let m : Int := Int.ofNat (ip * 10 ^ digitCount fpRun + fp)
      some (.finite (if neg then -m else m) (e - Int.ofNat (digitCount fpRun)))
    | _, _, _ => none

/-- Python `float(token)` restricted to ASCII: optional surrounding
whitespace, optional sign, then `inf`/`infinity`/`nan` (case-insensitive)
or a numeric literal. -/
def pyFloat (s0 : PyStr) : Option PyFloat :=
  let s := stripWs s0
  let neg : Bool :=
    match s with
    | '-' :: _ => true
    | _ => false
  let r : PyStr :=
    match s with
    | '+' :: t => t
    | '-' :: t => t
    | t => t
  let low := r.map Char.toLower
  if low = pys "inf" ∨ low = pys "infinity" then some (.inf neg)
  else if low = pys "nan" then some .nan
  else pyFloatMant neg r

/-- Abstract syntax of the regular expressions used by the module.
`cls` is a single-character class, the other constructors are the usual
sequencing, alternation and Kleene star. -/
inductive Regex where
  | eps
  | cls (p : Char → Bool)
  | rseq (a b : Regex)
  | ralt (a b : Regex)
  | rstar (a : Regex)

/-- Structural size of a regex, used to bound the engine's recursion. -/
def Regex.size : Regex → Nat
  | .eps => 1
  | .cls _ => 1
  | .rseq a b => a.size + b.size + 1
  | .ralt a b => a.size + b.size + 1
  | .rstar a => a.size + 1

/-- A literal string as a regex. -/
def rlit (s : PyStr) : Regex :=
  s.foldr (fun c r => .rseq (.cls (fun d => d = c)) r) .eps

/-- Backtracking matcher.  `runR fuel r s` returns, in Python's
backtracking preference order (greedy quantifiers, left alternative
first), the list of suffixes of `s` that remain after `r` matches a
prefix of `s`.  Every recursive call strictly decreases the pair
(length of the input, size of the regex) lexicographically — in the star
case only strictly-consuming iterations are continued, as a Python-style
guard against empty-match loops — so with `fuel` at least
`(s.length + 1) * (r.size + 1)` the fuel never runs out and the result
is the exact backtracking semantics. -/
def runR : Nat → Regex → PyStr → List PyStr
  | 0, _, _ => []
  | f + 1, r, s =>
    match r with
    | .eps => [s]
    | .cls p =>
      match s with
      | [] => []
      | c :: rest => if p c then [rest] else []
    | .rseq a b => flatMapL (runR f a s) (fun r2 => runR f b r2)
    | .ralt a b => runR f a s ++ runR f b s
    | .rstar a =>
      flatMapL ((runR f a s).filter (fun r2 => r2.length < s.length))
        (fun r2 => runR f (.rstar a) r2) ++ [s]

/-- Sufficient fuel for `runR` (see the comment on `runR`). -/
def fuelBound (r : Regex) (s : PyStr) : Nat := (s.length + 1) * (r.size + 1)

/-- All suffixes left after a match of `r` at the start of `s`. -/
def runRegex (r : Regex) (s : PyStr) : List PyStr := runR (fuelBound r s) r s

/-- Python `bool(pattern.match(s))` for a pattern that must consume the
whole input: some backtracking path consumes all of `s`. -/
def fullMatchB (r : Regex) (s : PyStr) : Bool :=
  (runRegex r s).any (fun t => t.isEmpty)

/-- Python `re.findall` (the matched substrings): scan positions left to
right; at each position take the preferred match if any and continue
after it, otherwise advance one character.  The fuel argument starts at
`s.length + 1`, which is enough since every step consumes at least one
character. -/
def scanAll : Nat → Regex → PyStr → List PyStr
  | 0, _, _ => []
  | f + 1, r, s =>
    match (runRegex r s).head? with
    | some rest =>
      let m := s.take (s.length - rest.length)
      if rest.length < s.length then m :: scanAll f r rest
      else
        match s with
        | [] => [m]
        | _ :: tail => m :: scanAll f r tail
    | none =>
      match s with
      | [] => []
      | _ :: tail => scanAll f r tail

/-- `\d` (ASCII; the inputs of interest are ASCII). -/
def rdigit : Regex := .cls Char.isDigit

/-- `\D`. -/
def rnondigit : Regex := .cls (fun c => !c.isDigit)

/-- `.` without `DOTALL`: any character except a newline. -/
def rdot : Regex := .cls (fun c => c ≠ '\n')

/-- `r+`. -/
def rplus (a : Regex) : Regex := .rseq a (.rstar a)

/-- `r?` (greedy: the present branch is preferred). -/
def ropt (a : Regex) : Regex := .ralt a .eps

/-- The control-field body `(\d+,|\d+(, \d+)+)` of the one-qubit gate
patterns. -/
def ctrlBody : Regex :=
  .ralt (.rseq (rplus rdigit) (rlit (pys ",")))
    (.rseq (rplus rdigit) (rplus (.rseq (rlit (pys ", ")) (rplus rdigit))))

/-- `NP_ONEQ_GATES_REGEX`:
`(X|Y|Z|H)\(target=\(\d+,\)(, control=\((\d+,|\d+(, \d+)+)\))?\)`. -/
def NP_ONEQ_GATES_REGEX : Regex :=
  .rseq (.ralt (rlit (pys "X")) (.ralt (rlit (pys "Y")) (.ralt (rlit (pys "Z")) (rlit (pys "H")))))
    (.rseq (rlit (pys "(target=("))
      (.rseq (rplus rdigit)
        (.rseq (rlit (pys ",)"))
          (.rseq (ropt (.rseq (rlit (pys ", control=(")) (.rseq ctrlBody (rlit (pys ")")))))
            (rlit (pys ")"))))))

/-- `P_ONEQ_GATES_REGEX`:
`(Phase|Rx|Ry|Rz)\(target=\(\d+,\)(, control=\((\d+,|\d+(, \d+)+)\))?,`
`· parameter=((\d+.\d*)|\D*)\)` — note the unescaped `.` in the numeric
parameter alternative. -/
def P_ONEQ_GATES_REGEX : Regex :=
  .rseq (.ralt (rlit (pys "Phase")) (.ralt (rlit (pys "Rx")) (.ralt (rlit (pys "Ry")) (rlit (pys "Rz")))))
    (.rseq (rlit (pys "(target=("))
      (.rseq (rplus rdigit)
        (.rseq (rlit (pys ",)"))
          (.rseq (ropt (.rseq (rlit (pys ", control=(")) (.rseq ctrlBody (rlit (pys ")")))))
            (.rseq (rlit (pys ", parameter="))
              (.rseq (.ralt (.rseq (rplus rdigit) (.rseq rdot (.rstar rdigit))) (.rstar rnondigit))
                (rlit (pys ")"))))))))

/-- The control-field body of the SWAP pattern, `(\d+,|\d+(, \d+)+|)` —
it also admits the empty body. -/
def ctrlBodySwap : Regex := .ralt ctrlBody .eps

/-- `SWAP_GATE_REGEX`:
`SWAP\(target=\(\d*, \d*\)(, control=\((\d+,|\d+(, \d+)+|)\))?\)` — note
`\d*`, which admits empty target indices. -/
def SWAP_GATE_REGEX : Regex :=
  .rseq (rlit (pys "SWAP(target=("))
    (.rseq (.rstar rdigit)
      (.rseq (rlit (pys ", "))
        (.rseq (.rstar rdigit)
          (.rseq (rlit (pys ")"))
            (.rseq (ropt (.rseq (rlit (pys ", control=(")) (.rseq ctrlBodySwap (rlit (pys ")")))))
              (rlit (pys ")")))))))

/-- The union `({NP_ONEQ}|{P_ONEQ}|{SWAP})` compiled inside
`circuit_from_string` to find all individual gates. -/
def gateUnionRegex : Regex :=
  .ralt NP_ONEQ_GATES_REGEX (.ralt P_ONEQ_GATES_REGEX SWAP_GATE_REGEX)

/-- Modelled from the spec: the repository's `create_multiline_regex`
module is not under src/ (only its caller `circuit_pattern` is).  Per
§4.2 of the specification the composed pattern requires the fixed header
token `circuit:` on its own line followed by a sequence of zero or more
gate lines, each matching exactly one of the three gate families, with
nothing else in the string. -/
def circuit_pattern : Regex :=
  .rseq (rlit (pys "circuit:\n")) (.rstar (.rseq gateUnionRegex (rlit (pys "\n"))))

/-- `validate_circuit_syntax`: whether the whole string conforms to the
composed circuit pattern. -/
def validate_circuit_syntax (s : PyStr) : Bool := fullMatchB circuit_pattern s

/-- The `gates = gate_regex.findall(circuit)` step of
`circuit_from_string` (each match's first group is the whole match). -/
def findallGates (s : PyStr) : List PyStr := scanAll (s.length + 1) gateUnionRegex s

/-- A gate parameter as produced by `get_gate_parameter`: a Python float
or the raw token as a string (the `typing.Union[float, str]` of the
source). -/
inductive ParamV where
  | pfloat (v : PyFloat)
  | pstr (s : PyStr)
  deriving DecidableEq, Repr

/-- The `GateDict` dataclass used during circuit construction from
string. -/
structure GateDict where
  name : PyStr
  target : List Int
  control : Option (List Int) := none
  parameter : Option ParamV := none
  deriving DecidableEq, Repr

/-- A gate object as handed to the external tequila constructor: the
constructor that was dispatched and the arguments it received.  For SWAP
the two unpacked target entries are recorded as the target list. -/
structure Gate where
  kind : PyStr
  target : List Int
  control : Option (List Int)
  parameter : Option ParamV
  deriving DecidableEq, Repr

/-- A `QCircuit` is modelled by its ordered gate sequence; `+` on
circuits concatenates the sequences. -/
abbrev QCircuit := List Gate

/-- Left-to-right effectful map, as a Python list comprehension or loop
propagates the first raised exception. -/
def exMapM {α β : Type} (f : α → Except PyErr β) : List α → Except PyErr (List β)
  | [] => .ok []
  | a :: rest =>
    match f a with
    | .error e => .error e
    | .ok b =>
      match exMapM f rest with
      | .error e => .error e
      | .ok bs => .ok (b :: bs)

/-- `int(n)` over a token, raising `ValueError` on a non-integer. -/
def pyIntTok (t : PyStr) : Except PyErr Int :=
  match pyInt t with
  | some v => .ok v
  | none => .error (.valueError t)

/-- The bracketed contents of the named field:
`string.split(f'{data}=(', 1)[1].split(")")[0]`; `none` when the field
delimiter does not occur (the `[1]` raises `IndexError`). -/
def bracketArea (s data : PyStr) : Option PyStr :=
  (findSub (data ++ pys "=(") s).map (fun p => (pySplitChar ')' p.2).headD [])

/-- `[int(n) for n in parts]`. -/
def parseQubitTokens (parts : List PyStr) : Except PyErr (List Int) :=
  exMapM pyIntTok parts

/-- `get_one_gate_data_from_string`: locate the named field's bracketed
contents, split on `,`, drop a trailing empty token, parse each token as
an integer. -/
def get_one_gate_data_from_string (s data : PyStr) : Except PyErr (List Int) :=
  match bracketArea s data with
  | none => .error .indexError
  | some area => parseQubitTokens (dropTrailingEmpty (pySplitChar ',' area))

/-- `get_gate_parameter`: the contents of the `parameter` field, parsed
as a float when possible and kept as the raw token otherwise. -/
def get_gate_parameter (s : PyStr) : Except PyErr ParamV :=
  match findSub (pys "parameter=") s with
  | none => .error .indexError
  | some p =>
    let tok := (pySplitChar ')' p.2).headD []
    match pyFloat tok with
    | some v => .ok (.pfloat v)
    | none => .ok (.pstr tok)

/-- The `string.split("(", 1)[0]` step of `gate_string_to_dict`: the
text before the first `(`, or the whole string when there is none. -/
def gateName (s : PyStr) : PyStr :=
  match findSub (pys "(") s with
  | some p => p.1
  | none => s

/-- `gate_string_to_dict`: name is the text before the first `(`; target
is always extracted; control and parameter are extracted when the text
contains the substring `control` resp. `parameter`. -/
def gate_string_to_dict (s : PyStr) : Except PyErr GateDict :=
  let name : PyStr := gateName s
  match get_one_gate_data_from_string s (pys "target") with
  | .error e => .error e
  | .ok target =>
    match (if containsSub (pys "control") s then
        (get_one_gate_data_from_string s (pys "control")).map some
      else .ok none) with
    | .error e => .error e
    | .ok control =>
      match (if containsSub (pys "parameter") s then
          (get_gate_parameter s).map some
        else .ok none) with
      | .error e => .error e
      | .ok parameter => .ok ⟨name, target, control, parameter⟩

/-- Python truthiness of `gate.control and set(gate.target) & set(gate.control)`. -/
def hasSameControlAndTarget (g : GateDict) : Bool :=
  match g.control with
  | none => false
  | some c => !c.isEmpty && g.target.any (fun t => decide (t ∈ c))

/-- The nine gate names `gate_from_gate_dict` dispatches on. -/
def supportedGateNames : List PyStr :=
  [pys "X", pys "Y", pys "Z", pys "H", pys "Rx", pys "Ry", pys "Rz", pys "Phase", pys "SWAP"]

/-- `gate_from_gate_dict`: the disjointness guard first, then dispatch
on the gate name; an unknown name falls through to `return None`. -/
def gate_from_gate_dict (g : GateDict) : Except PyErr (Option QCircuit) :=
  if hasSameControlAndTarget g then .error .sameControlAndTarget
  else if g.name ∈ [pys "X", pys "Y", pys "Z", pys "H"] then
    .ok (some [⟨g.name, g.target, g.control, none⟩])
  else if g.name ∈ [pys "Rx", pys "Ry", pys "Rz"] then
    .ok (some [⟨g.name, g.target, g.control, g.parameter⟩])
  else if g.name = pys "Phase" then
    .ok (some [⟨g.name, g.target, g.control, g.parameter⟩])
  else if g.name = pys "SWAP" then
    match g.target with
    | [a, b] => .ok (some [⟨g.name, [a, b], g.control, none⟩])
    | _ => .error .unpackError
  else .ok none

/-- Python `circuit += gate` where either side may be the `None` an
unsupported dispatch returned (adding `None` raises `TypeError`). -/
def pyAdd (a b : Option QCircuit) : Except PyErr (Option QCircuit) :=
  match a, b with
  | some x, some y => .ok (some (x ++ y))
  | _, _ => .error .typeError

/-- The accumulation loop of `circuit_from_string`:
`for gate in gates[1:]: circuit += gate_from_gate_dict(gate)`. -/
def circuitFold (c0 : Option QCircuit) : List GateDict → Except PyErr (Option QCircuit)
  | [] => .ok c0
  | d :: rest =>
    match gate_from_gate_dict d with
    | .error e => .error e
    | .ok g =>
      match pyAdd c0 g with
      | .error e => .error e
      | .ok c1 => circuitFold c1 rest

/-- `circuit_from_string`: validate (raising `InvalidSyntaxError`
otherwise), find all gate substrings, build their records, and compose
the materialized gates in order; zero gates yield `None`. -/
def circuit_from_string (s : PyStr) : Except PyErr (Option QCircuit) :=
  if validate_circuit_syntax s = false then .error .invalidSyntax
  else
    match exMapM gate_string_to_dict (findallGates s) with
    | .error e => .error e
    | .ok [] => .ok none
    | .ok (d :: rest) =>
      match gate_from_gate_dict d with
      | .error e => .error e
      | .ok c0 => circuitFold c0 rest

/-- Decidable equality on `Except`, for evaluating concrete runs. -/
instance {ε α : Type} [DecidableEq ε] [DecidableEq α] : DecidableEq (Except ε α) := fun a b =>
  match a, b with
  | .error e1, .error e2 =>
    if h : e1 = e2 then .isTrue (by rw [h]) else .isFalse (by intro hh; cases hh; exact h rfl)
  | .ok v1, .ok v2 =>
    if h : v1 = v2 then .isTrue (by rw [h]) else .isFalse (by intro hh; cases hh; exact h rfl)
  | .error _, .ok _ => .isFalse (by intro hh; cases hh)
  | .ok _, .error _ => .isFalse (by intro hh; cases hh)

/-- `pySplitChar` never returns the empty list of parts. -/
theorem pySplitChar_ne_nil (sep : Char) (s : PyStr) : pySplitChar sep s ≠ [] := by
  cases s with
  | nil => simp [pySplitChar]
  | cons c rest =>
    unfold pySplitChar
    by_cases h : c = sep
    · simp [h]
    · simp only [h, if_false]
      cases pySplitChar sep rest <;> simp

/-- Splitting a string with a trailing separator yields the parts of the
string without it, followed by one empty part. -/
theorem pySplitChar_concat_sep (sep : Char) (s : PyStr) :
    pySplitChar sep (s ++ [sep]) = pySplitChar sep s ++ [[]] := by
  induction s with
  | nil => simp [pySplitChar]
  | cons c rest ih =>
    rw [List.cons_append]
    unfold pySplitChar
    by_cases h : c = sep
    · rw [if_pos h, if_pos h, ih]
      rfl
    · rw [if_neg h, if_neg h, ih]
      have hne := pySplitChar_ne_nil sep rest
      cases hrec : pySplitChar sep rest with
      | nil => exact absurd hrec hne
      | cons p ps => simp

/-- Dropping the trailing empty token after a trailing separator leaves
exactly the parts of the body. -/
theorem dropTrailingEmpty_concat (l : List PyStr) :
    dropTrailingEmpty (l ++ [[]]) = l := by
  unfold dropTrailingEmpty
  rw [List.getLast?_concat, List.dropLast_concat]

/-- A failing `exMapM` fails on an element of the list. -/
theorem exMapM_error {α β : Type} (f : α → Except PyErr β) (l : List α) (e : PyErr)
    (h : exMapM f l = .error e) : ∃ a ∈ l, f a = .error e := by
  induction l with
  | nil => simp [exMapM] at h
  | cons a rest ih =>
    unfold exMapM at h
    cases hfa : f a with
    | error e2 =>
      rw [hfa] at h
      exact ⟨a, by simp, by cases h; exact hfa⟩
    | ok b =>
      rw [hfa] at h
      cases hrest : exMapM f rest with
      | error e2 =>
        rw [hrest] at h
        cases h
        obtain ⟨a2, ha2, hfa2⟩ := ih hrest
        exact ⟨a2, by simp [ha2], hfa2⟩
      | ok bs => rw [hrest] at h; cases h

/-- The qubit-token parser only fails with a `ValueError` carrying the
offending token. -/
theorem parseQubitTokens_error_shape (parts : List PyStr) (e : PyErr)
    (h : parseQubitTokens parts = .error e) : ∃ t, pyInt t = none ∧ e = .valueError t := by
  obtain ⟨t, _, hft⟩ := exMapM_error _ _ _ h
  unfold pyIntTok at hft
  cases hp : pyInt t with
  | none => rw [hp] at hft; cases hft; exact ⟨t, hp, rfl⟩
  | some v => rw [hp] at hft; cases hft

/-- If some token of the part list is not a valid integer, the
qubit-token parser fails with a `ValueError` on such a token. -/
theorem parseQubitTokens_fails (parts : List PyStr)
    (h : ∃ t ∈ parts, pyInt t = none) :
    ∃ t, pyInt t = none ∧ parseQubitTokens parts = .error (.valueError t) := by
  induction parts with
  | nil => simp at h
  | cons p rest ih =>
    cases hp : pyInt p with
    | none =>
      refine ⟨p, hp, ?_⟩
      simp [parseQubitTokens, exMapM, pyIntTok, hp]
    | some v =>
      obtain ⟨t, ht, htn⟩ := h
      rcases List.mem_cons.mp ht with rfl | htr
      · rw [hp] at htn; cases htn
      · obtain ⟨t2, ht2n, ht2⟩ := ih ⟨t, htr, htn⟩
        refine ⟨t2, ht2n, ?_⟩
        simp only [parseQubitTokens, exMapM, pyIntTok, hp] at ht2 ⊢
        rw [ht2]

/-- `get_one_gate_data_from_string` only fails with `IndexError` or a
`ValueError`. -/
theorem get_one_gate_data_error_shape (s d : PyStr) (e : PyErr)
    (h : get_one_gate_data_from_string s d = .error e) :
    e = .indexError ∨ ∃ t, e = .valueError t := by
  unfold get_one_gate_data_from_string at h
  cases hb : bracketArea s d with
  | none => rw [hb] at h; cases h; exact Or.inl rfl
  | some area =>
    rw [hb] at h
    obtain ⟨t, _, rfl⟩ := parseQubitTokens_error_shape _ _ h
    exact Or.inr ⟨t, rfl⟩

/-- `get_gate_parameter` only fails with `IndexError`. -/
theorem get_gate_parameter_error_shape (s : PyStr) (e : PyErr)
    (h : get_gate_parameter s = .error e) : e = .indexError := by
  unfold get_gate_parameter at h
  cases hf : findSub (pys "parameter=") s with
  | none => rw [hf] at h; cases h; rfl
  | some p =>
    rw [hf] at h
    simp only at h
    split at h <;> cases h

/-- `gate_string_to_dict` only fails with `IndexError` or a `ValueError`. -/
theorem gate_string_to_dict_error_shape (s : PyStr) (e : PyErr)
    (h : gate_string_to_dict s = .error e) :
    e = .indexError ∨ ∃ t, e = .valueError t := by
  unfold gate_string_to_dict at h
  cases h1 : get_one_gate_data_from_string s (pys "target") with
  | error e1 =>
    rw [h1] at h; cases h
    exact get_one_gate_data_error_shape _ _ _ h1
  | ok target =>
    rw [h1] at h
    by_cases hc : containsSub (pys "control") s
    all_goals simp only [hc, if_true, if_false] at h
    · cases h2 : get_one_gate_data_from_string s (pys "control") with
      | error e2 =>
        rw [h2] at h; cases h
        exact get_one_gate_data_error_shape _ _ _ h2
      | ok ctl =>
        rw [h2] at h
        simp only [Except.map] at h
        by_cases hp : containsSub (pys "parameter") s
        all_goals simp only [hp, if_true, if_false] at h
        · cases h3 : get_gate_parameter s with
          | error e3 =>
            rw [h3] at h
            simp only [Except.map] at h
            cases h
            exact Or.inl (get_gate_parameter_error_shape _ _ h3)
          | ok pv => rw [h3] at h; simp [Except.map] at h
        · cases h
    · by_cases hp : containsSub (pys "parameter") s
      all_goals simp only [hp, if_true, if_false] at h
      · cases h3 : get_gate_parameter s with
        | error e3 =>
          rw [h3] at h
          simp only [Except.map] at h
          cases h
          exact Or.inl (get_gate_parameter_error_shape _ _ h3)
        | ok pv => rw [h3] at h; simp [Except.map] at h
      · cases h

/-- `gate_from_gate_dict` only fails with `SameControlAndTarget` or the
`ValueError` of the SWAP target unpacking. -/
theorem gate_from_gate_dict_error_shape (g : GateDict) (e : PyErr)
    (h : gate_from_gate_dict g = .error e) :
    e = .sameControlAndTarget ∨ e = .unpackError := by
  unfold gate_from_gate_dict at h
  split at h
  · cases h; exact Or.inl rfl
  · split at h
    · cases h
    · split at h
      · cases h
      · split at h
        · cases h
        · split at h
          · split at h
            · cases h
            · cases h; exact Or.inr rfl
          · cases h

/-- The accumulation loop only fails with `SameControlAndTarget`, the
unpacking `ValueError`, or the `TypeError` of adding `None`. -/
theorem circuitFold_error_shape (c0 : Option QCircuit) (ds : List GateDict) (e : PyErr)
    (h : circuitFold c0 ds = .error e) :
    e = .sameControlAndTarget ∨ e = .unpackError ∨ e = .typeError := by
  induction ds generalizing c0 with
  | nil => simp [circuitFold] at h
  | cons d rest ih =>
    unfold circuitFold at h
    split at h
    · cases h
      rename_i e2 hg
      rcases gate_from_gate_dict_error_shape _ _ hg with h1 | h1
      · exact Or.inl h1
      · exact Or.inr (Or.inl h1)
    · rename_i g hg
      split at h
      · cases h
        rename_i e2 hp
        unfold pyAdd at hp
        split at hp
        · cases hp
        · cases hp
          exact Or.inr (Or.inr rfl)
      · rename_i c1 hp
        exact ih c1 h

/-- Running the accumulation loop over records that all materialize to
(present) one-gate circuits appends those circuits in order. -/
theorem circuitFold_append (ds : List GateDict) (cs : List QCircuit) (acc : QCircuit)
    (h : exMapM gate_from_gate_dict ds = .ok (cs.map some)) :
    circuitFold (some acc) ds = .ok (some (acc ++ cs.flatten)) := by
  induction ds generalizing cs acc with
  | nil =>
    simp only [exMapM, Except.ok.injEq] at h
    cases cs with
    | nil => simp [circuitFold]
    | cons c cs2 => simp at h
  | cons d rest ih =>
    unfold exMapM at h
    split at h
    · cases h
    · rename_i o hg
      split at h
      · cases h
      · rename_i os hrest
        rw [Except.ok.injEq] at h
        cases cs with
        | nil => simp at h
        | cons c cs2 =>
          simp only [List.map_cons, List.cons.injEq] at h
          obtain ⟨rfl, hos⟩ := h
          rw [show circuitFold (some acc) (d :: rest) = circuitFold (some (acc ++ c)) rest from by
            conv_lhs => rw [circuitFold, hg]
            rfl]
          rw [ih cs2 (acc ++ c) (by rw [hrest, hos])]
          simp

/-- When a separator does not occur as a substring, splitting on it
finds nothing. -/
theorem findSub_eq_none_of_not_contains (sep s : PyStr)
    (h : containsSub sep s = false) : findSub sep s = none := by
  induction s with
  | nil =>
    unfold containsSub at h
    unfold findSub
    rw [if_neg]
    intro hsep
    rw [hsep] at h
    simp [List.isEmpty] at h
  | cons c rest ih =>
    unfold containsSub at h
    rw [Bool.or_eq_false_iff] at h
    unfold findSub
    rw [if_neg (by simp [h.1]), ih h.2]
    rfl

/-- Claim C2 (confirmed): for every gate record whose controls and
targets share at least one qubit index, `gate_from_gate_dict` raises
`SameControlAndTarget` — the guard runs before any gate-kind dispatch,
so this holds regardless of the record's gate name and regardless of how
the record was produced. -/
theorem C2_same_control_and_target (g : GateDict) (c : List Int) (t : Int)
    (hc : g.control = some c) (ht : t ∈ g.target) (htc : t ∈ c) :
    gate_from_gate_dict g = .error .sameControlAndTarget := by
  have hsame : hasSameControlAndTarget g = true := by
    unfold hasSameControlAndTarget
    rw [hc]
    rw [Bool.and_eq_true]
    constructor
    · cases c with
      | nil => cases htc
      | cons a as => rfl
    · rw [List.any_eq_true]
      exact ⟨t, ht, by simp [htc]⟩
  simp [gate_from_gate_dict, hsame]

/-- Witness for C2: the record with name `Q` (not even a supported gate
kind), targets `[0]` and controls `[0]` is rejected. -/
theorem C2_same_control_and_target_witness :
    gate_from_gate_dict ⟨pys "Q", [0], some [0], none⟩ = .error .sameControlAndTarget :=
  C2_same_control_and_target ⟨pys "Q", [0], some [0], none⟩ [0] 0 rfl (by decide) (by decide)

/-- Claim C3 is false on the code: for a record with the unknown name
`FOO` (targets and controls disjoint), `gate_from_gate_dict` silently
returns the absent value `None` instead of failing with
`UnsupportedGateKind`. -/
theorem C3_counterexample :
    gate_from_gate_dict ⟨pys "FOO", [0], none, none⟩ = .ok none ∧
    gate_from_gate_dict ⟨pys "FOO", [0], none, none⟩ ≠ .error .unsupportedGateKind := by
  decide

/-- Claim C3 (amended): for every gate record whose name is outside the
nine supported kinds and which passes the disjointness guard,
`gate_from_gate_dict` silently returns the absent value `None` (it does
not fail with `UnsupportedGateKind`). -/
theorem C3_unknown_name_returns_none (g : GateDict)
    (hname : g.name ∉ supportedGateNames)
    (hsame : hasSameControlAndTarget g = false) :
    gate_from_gate_dict g = .ok none := by
  simp only [supportedGateNames, List.mem_cons, List.not_mem_nil, or_false, not_or] at hname
  obtain ⟨h1, h2, h3, h4, h5, h6, h7, h8, h9⟩ := hname
  simp [gate_from_gate_dict, hsame, h1, h2, h3, h4, h5, h6, h7, h8, h9]

/-- Witness for the amended C3 at the concrete record named `FOO`. -/
theorem C3_unknown_name_returns_none_witness :
    (pys "FOO" ∉ supportedGateNames) ∧
    hasSameControlAndTarget ⟨pys "FOO", [1], none, none⟩ = false ∧
    gate_from_gate_dict ⟨pys "FOO", [1], none, none⟩ = .ok none :=
  ⟨by decide, by decide, C3_unknown_name_returns_none ⟨pys "FOO", [1], none, none⟩ (by decide) (by decide)⟩

/-- Claim C4 is false on the code: the gate string `X(target=(0,),
parameter=5)` has leading gate name `X` (a kind not requiring a
parameter), yet `gate_string_to_dict` attaches the parameter `5.0` to
the record, because the builder keys on the textual presence of the
`parameter` marker, not on the gate kind. -/
theorem C4_counterexample :
    gate_string_to_dict (pys "X(target=(0,), parameter=5)") =
      .ok ⟨pys "X", [0], none, some (.pfloat (.finite 5 0))⟩ ∧
    some (ParamV.pfloat (PyFloat.finite 5 0)) ≠ (none : Option ParamV) := by
  decide

/-- Claim C4 (amended): the record builder decides whether to extract a
parameter from textual presence alone — for every gate string on which
it succeeds, the record's parameter field is absent exactly when the
text does not contain the substring `parameter`.  (Grammar-conformant
strings of the kinds `X, Y, Z, H, SWAP` never contain that marker, so
their records carry no parameter.) -/
theorem C4_parameter_iff_marker (s : PyStr) (d : GateDict)
    (h : gate_string_to_dict s = .ok d) :
    (d.parameter = none ↔ containsSub (pys "parameter") s = false) := by
  unfold gate_string_to_dict at h
  split at h
  · cases h
  · rename_i target htarget
    split at h
    · cases h
    · rename_i control hcontrol
      by_cases hp : containsSub (pys "parameter") s
      · rw [if_pos hp] at h
        cases hgp : get_gate_parameter s with
        | error e => rw [hgp] at h; simp [Except.map] at h
        | ok v =>
          rw [hgp] at h
          simp only [Except.map, Except.ok.injEq] at h
          cases h
          simp [hp]
      · rw [if_neg hp] at h
        have hpf : containsSub (pys "parameter") s = false := by simpa using hp
        simp only [Except.ok.injEq] at h
        cases h
        simp [hpf]

/-- Witness for the amended C4 at a concrete marker-free gate string. -/
theorem C4_parameter_iff_marker_witness :
    gate_string_to_dict (pys "X(target=(0,))") = .ok ⟨pys "X", [0], none, none⟩ ∧
    ((none : Option ParamV) = none ↔ containsSub (pys "parameter") (pys "X(target=(0,))") = false) :=
  ⟨by decide, C4_parameter_iff_marker (pys "X(target=(0,))") ⟨pys "X", [0], none, none⟩ (by decide)⟩

/-- Claim C5 is false as stated: on the gate string `X(target=(q,))` the
extractor fails with the unnamed language-level `ValueError` raised by
`int('q')`, not with a distinct `MalformedField` condition. -/
theorem C5_counterexample :
    get_one_gate_data_from_string (pys "X(target=(q,))") (pys "target") =
      .error (.valueError (pys "q")) ∧
    get_one_gate_data_from_string (pys "X(target=(q,))") (pys "target") ≠
      .error .malformedField := by
  decide

/-- Claim C5 (amended): for every gate string and field name whose
bracketed contents contain a token that is not a valid integer, the
extractor fails — but with the language-level `ValueError` carrying the
offending token, not with a distinct named `MalformedField` condition. -/
theorem C5_invalid_token_value_error (s field area : PyStr)
    (ha : bracketArea s field = some area)
    (hbad : ∃ t ∈ dropTrailingEmpty (pySplitChar ',' area), pyInt t = none) :
    ∃ t, pyInt t = none ∧
      get_one_gate_data_from_string s field = .error (.valueError t) := by
  obtain ⟨t, htn, hres⟩ := parseQubitTokens_fails _ hbad
  refine ⟨t, htn, ?_⟩
  unfold get_one_gate_data_from_string
  rw [ha]
  exact hres

/-- Witness for the amended C5 at the concrete gate string
`H(target=(zz,))`. -/
theorem C5_invalid_token_value_error_witness :
    bracketArea (pys "H(target=(zz,))") (pys "target") = some (pys "zz,") ∧
    (∃ t ∈ dropTrailingEmpty (pySplitChar ',' (pys "zz,")), pyInt t = none) ∧
    ∃ t, pyInt t = none ∧
      get_one_gate_data_from_string (pys "H(target=(zz,))") (pys "target") =
        .error (.valueError t) :=
  ⟨by decide, by decide,
    C5_invalid_token_value_error (pys "H(target=(zz,))") (pys "target") (pys "zz,")
      (by decide) (by decide)⟩

/-- Claim C6 (confirmed, against the spec-modelled validator): the input
`circuit:\n` — a valid header with zero gate occurrences — makes
`circuit_from_string` return the explicit absent result `None` (not an
empty circuit object) without raising. -/
theorem C6_empty_gate_sequence :
    circuit_from_string (pys "circuit:\n") = .ok none := by
  decide

/-- Claim C9 (confirmed): when the named field's bracketed contents end
with a trailing list separator, the extractor discards the resulting
trailing empty token and parses exactly the remaining tokens — the
result is the same as parsing the contents without the trailing
separator. -/
theorem C9_trailing_separator_tolerance (s field area body : PyStr)
    (ha : bracketArea s field = some area) (hb : area = body ++ [',']) :
    get_one_gate_data_from_string s field = parseQubitTokens (pySplitChar ',' body) := by
  unfold get_one_gate_data_from_string
  rw [ha]
  rw [show (match some area with
      | none => Except.error PyErr.indexError
      | some a => parseQubitTokens (dropTrailingEmpty (pySplitChar ',' a))) =
      parseQubitTokens (dropTrailingEmpty (pySplitChar ',' area)) from rfl]
  rw [hb, pySplitChar_concat_sep, dropTrailingEmpty_concat]

/-- Witness for C9: `control=(3,)` parses to `[3]`. -/
theorem C9_trailing_separator_tolerance_witness :
    bracketArea (pys "X(target=(0,), control=(3,))") (pys "control") = some (pys "3,") ∧
    get_one_gate_data_from_string (pys "X(target=(0,), control=(3,))") (pys "control") =
      .ok [3] := by
  refine ⟨by decide, ?_⟩
  rw [C9_trailing_separator_tolerance (pys "X(target=(0,), control=(3,))") (pys "control")
    (pys "3,") (pys "3") (by decide) (by decide)]
  decide

/-- Claim C8 (confirmed): for every gate string containing a parameter
field, `get_gate_parameter` attempts numeric parsing of the field's
token first and returns the float on success; when numeric parsing
fails it returns the raw token as a string without raising, so numeric
and symbolic parameters are distinguishable by the result constructor. -/
theorem C8_parameter_numeric_first (s b after : PyStr)
    (hf : findSub (pys "parameter=") s = some (b, after)) :
    (∀ v, pyFloat ((pySplitChar ')' after).headD []) = some v →
      get_gate_parameter s = .ok (.pfloat v)) ∧
    (pyFloat ((pySplitChar ')' after).headD []) = none →
      get_gate_parameter s = .ok (.pstr ((pySplitChar ')' after).headD []))) := by
  constructor
  · intro v hv
    unfold get_gate_parameter
    rw [hf]
    simp only [hv]
  · intro hv
    unfold get_gate_parameter
    rw [hf]
    simp only [hv]

/-- Witness for C8: `parameter=1.57` yields the float `1.57` and
`parameter=theta` yields the string `theta`. -/
theorem C8_parameter_numeric_first_witness :
    get_gate_parameter (pys "Rx(target=(1,), parameter=1.57)") =
      .ok (.pfloat (.finite 157 (-2))) ∧
    get_gate_parameter (pys "Rx(target=(1,), parameter=theta)") =
      .ok (.pstr (pys "theta")) := by
  constructor
  · exact (C8_parameter_numeric_first (pys "Rx(target=(1,), parameter=1.57)")
      (pys "Rx(target=(1,), ") (pys "1.57)") (by decide)).1 (.finite 157 (-2)) (by decide)
  · exact (C8_parameter_numeric_first (pys "Rx(target=(1,), parameter=theta)")
      (pys "Rx(target=(1,), ") (pys "theta)") (by decide)).2 (by decide)

/-- Claim C10 (confirmed): a gate string that contains the substring
`control` but not the full field delimiter `control=(` (such as a
parametrized gate whose symbolic parameter name contains `control`,
which the grammar admits and the validator accepts) makes
`gate_string_to_dict` invoke control extraction, and the failed
`split('control=(', 1)[1]` raises `IndexError` — an error outside the
specification's taxonomy — instead of producing a record.  The
well-formedness of the gate string is captured by the hypothesis that
its target field extracts successfully, as it does for every
grammar-conformant parametrized gate. -/
theorem C10_control_marker_without_field (s : PyStr) (ts : List Int)
    (hc : containsSub (pys "control") s = true)
    (hnf : containsSub (pys "control=(") s = false)
    (htarget : get_one_gate_data_from_string s (pys "target") = .ok ts) :
    gate_string_to_dict s = .error .indexError := by
  have hfs : findSub (pys "control=(") s = none :=
    findSub_eq_none_of_not_contains _ _ hnf
  have hba : bracketArea s (pys "control") = none := by
    unfold bracketArea
    rw [show pys "control" ++ pys "=(" = pys "control=(" from by decide, hfs]
    rfl
  have hget : get_one_gate_data_from_string s (pys "control") = .error .indexError := by
    unfold get_one_gate_data_from_string
    rw [hba]
  unfold gate_string_to_dict
  rw [htarget]
  simp only [hc, if_true, hget, Except.map]

/-- Witness for C10: the validator-accepted gate
`Rx(target=(0,), parameter=control_t)`. -/
theorem C10_control_marker_without_field_witness :
    validate_circuit_syntax (pys "circuit:\nRx(target=(0,), parameter=control_t)\n") = true ∧
    containsSub (pys "control") (pys "Rx(target=(0,), parameter=control_t)") = true ∧
    containsSub (pys "control=(") (pys "Rx(target=(0,), parameter=control_t)") = false ∧
    gate_string_to_dict (pys "Rx(target=(0,), parameter=control_t)") = .error .indexError :=
  ⟨by decide, by decide, by decide,
    C10_control_marker_without_field (pys "Rx(target=(0,), parameter=control_t)") [0]
      (by decide) (by decide) (by decide)⟩

/-- Claim C1 is false as stated: the validator accepts
`circuit:\nSWAP(target=(, ))\n` (the SWAP grammar's `\d*` admits empty
target indices), yet `circuit_from_string` on the same input raises the
`ValueError` of `int('')` — exactly the malformed-field parse-time
condition the claim says an accepted string cannot produce. -/
theorem C1_counterexample :
    validate_circuit_syntax (pys "circuit:\nSWAP(target=(, ))\n") = true ∧
    circuit_from_string (pys "circuit:\nSWAP(target=(, ))\n") = .error (.valueError []) := by
  decide

/-- Claim C1 (amended): `validate_circuit_syntax` returns false if and
only if `circuit_from_string` on the same string raises `InvalidSyntax`;
acceptance by the validator rules out `InvalidSyntax` but not the
malformed-field (`ValueError`) failures of record building. -/
theorem C1_validator_iff_invalid_syntax (s : PyStr) :
    validate_circuit_syntax s = false ↔
      circuit_from_string s = .error .invalidSyntax := by
  constructor
  · intro h
    unfold circuit_from_string
    rw [h]
    simp
  · intro h
    by_contra hv
    rw [Bool.not_eq_false] at hv
    unfold circuit_from_string at h
    rw [hv] at h
    simp only [Bool.true_eq_false, if_false] at h
    split at h
    · cases h
      rename_i e hmap
      obtain ⟨a, _, hfa⟩ := exMapM_error _ _ _ hmap
      rcases gate_string_to_dict_error_shape _ _ hfa with h1 | ⟨t, h1⟩ <;> cases h1
    · cases h
    · split at h
      · cases h
        rename_i hg
        rcases gate_from_gate_dict_error_shape _ _ hg with h1 | h1 <;> cases h1
      · rcases circuitFold_error_shape _ _ _ h with h1 | h1 | h1 <;> cases h1

/-- Claim C7 (confirmed): for every valid input string whose
left-to-right scan yields gate records materializing to the one-gate
circuits `cs = [g1, ..., gn]` (n ≥ 1), `circuit_from_string` composes
them by sequential append in exactly that order: the reconstructed
circuit's gate sequence is the concatenation of `cs` in order. -/
theorem C7_order_preservation (s : PyStr) (ds : List GateDict) (cs : List QCircuit)
    (hval : validate_circuit_syntax s = true)
    (hds : exMapM gate_string_to_dict (findallGates s) = .ok ds)
    (hcs : exMapM gate_from_gate_dict ds = .ok (cs.map some))
    (hne : cs ≠ []) :
    circuit_from_string s = .ok (some cs.flatten) := by
  unfold circuit_from_string
  rw [hval]
  simp only [Bool.true_eq_false, if_false]
  rw [hds]
  cases ds with
  | nil =>
    exfalso
    apply hne
    simp only [exMapM, Except.ok.injEq] at hcs
    cases cs with
    | nil => rfl
    | cons c cs2 => simp at hcs
  | cons d rest =>
    unfold exMapM at hcs
    split at hcs
    · cases hcs
    · rename_i o hg
      split at hcs
      · cases hcs
      · rename_i os hrest
        rw [Except.ok.injEq] at hcs
        cases cs with
        | nil => simp at hcs
        | cons c cs2 =>
          simp only [List.map_cons, List.cons.injEq] at hcs
          obtain ⟨rfl, hos⟩ := hcs
          simp only [hg]
          rw [circuitFold_append rest cs2 c (by rw [hrest, hos])]
          simp

/-- Witness for C7 at a two-gate circuit string: the gates appear in the
output in textual order. -/
theorem C7_order_preservation_witness :
    ([[⟨pys "X", [0], none, none⟩], [⟨pys "H", [1], none, none⟩]] : List QCircuit) ≠ [] ∧
    circuit_from_string (pys "circuit:\nX(target=(0,))\nH(target=(1,))\n") =
      .ok (some ([[⟨pys "X", [0], none, none⟩], [⟨pys "H", [1], none, none⟩]] :
        List QCircuit).flatten) :=
  ⟨by decide,
    C7_order_preservation (pys "circuit:\nX(target=(0,))\nH(target=(1,))\n")
      [⟨pys "X", [0], none, none⟩, ⟨pys "H", [1], none, none⟩]
      [[⟨pys "X", [0], none, none⟩], [⟨pys "H", [1], none, none⟩]]
      (by decide) (by decide) (by decide) (by decide)⟩
